import Mathlib

/-!
Verification development for the Diagonessis chat frontend.

The repository is a React/TypeScript client.  We shallowly embed the parts
of the code the specification talks about:

* the axios response interceptor with token refresh
  (`services/apiService.ts`, class `ApiService`),
* the chat view state updates (`Pages/Chat.tsx` and the earlier chat view
  variant: `sendMessage`, `handleChatSelect`, `deleteChat`),
* the auth form (`Pages/SignInUp.tsx`: OTP input transform, `validators`,
  mode switching).

JavaScript strings that undergo character-level operations
(`slice`, `replace`, `trim`, `length`) are embedded as `List Char`;
strings used only for identity comparison stay `String`.
Timestamps (`Date` values) are embedded as `Nat`.
-/

/-- JS `String.prototype.trim`: strip whitespace from both ends. -/
def jsTrim (l : List Char) : List Char :=
  ((l.dropWhile Char.isWhitespace).reverse.dropWhile Char.isWhitespace).reverse

/-! ### Chat view data model (local interfaces in `Chat.tsx`) -/

/-- `interface MessageData { id; text; isUser; timestamp }` from `Chat.tsx`. -/
structure MessageData where
  id : String
  text : List Char
  isUser : Bool
  timestamp : Nat
deriving Repr, DecidableEq

/-- `interface Chat { id; title; messages; lastMessage; messageCount }` from `Chat.tsx`. -/
structure Chat where
  id : String
  title : List Char
  messages : List MessageData
  lastMessage : Nat
  messageCount : Nat
deriving Repr, DecidableEq

/-- The paired user/assistant reply inside a successful
`apiService.sendMessage` response (`SendMessageResponse.data`). -/
structure SendResponse where
  userMessage : MessageData
  aiMessage : MessageData
deriving Repr, DecidableEq

/-- The chat-view state touched by `sendMessage` in `Chat.tsx`:
`chats`, `activeChat` and the input text `message`. -/
structure ChatState where
  chats : List Chat
  activeChat : String
  message : List Char
deriving Repr, DecidableEq

/-- The title expression in `sendMessage`:
`message.slice(0, 30) + (message.length > 30 ? '...' : '')`. -/
def truncateTitle (message : List Char) : List Char :=
  message.take 30 ++ (if 30 < message.length then ['.', '.', '.'] else [])

/-- The per-chat updater inside `setChats(prev => prev.map(chat => ...))`
in `sendMessage` (identical in `Chat.tsx` and the earlier chat view). -/
def sendMessageChatUpdate (activeChat : String) (message : List Char)
    (resp : SendResponse) (now : Nat) (chat : Chat) : Chat :=
  if chat.id == activeChat then
    { chat with
      messages := chat.messages ++ [resp.userMessage, resp.aiMessage],
      title := if chat.messages.length == 0 then truncateTitle message else chat.title,
      lastMessage := now,
      messageCount := chat.messageCount + 2 }
  else chat

/-- The whole `setChats` functional update performed after a successful send. -/
def sendMessageUpdate (activeChat : String) (message : List Char)
    (resp : SendResponse) (now : Nat) (chats : List Chat) : List Chat :=
  chats.map (sendMessageChatUpdate activeChat message resp now)

/-- `sendMessage` from `Chat.tsx` on the success path.  The leading guard is
`if (!message.trim() || !activeChat) return;` (for JS strings `!s` is the
empty-string test).  The returned `Bool` records whether the network call
`apiService.sendMessage` was issued; on success the paired response is
appended via `sendMessageUpdate` and the input is cleared (`setMessage('')`). -/
def sendMessage (st : ChatState) (resp : SendResponse) (now : Nat) : ChatState × Bool :=
  if jsTrim st.message = [] ∨ st.activeChat = "" then (st, false)
  else
    ({ chats := sendMessageUpdate st.activeChat st.message resp now st.chats,
       activeChat := st.activeChat,
       message := [] }, true)

/-- `loadMessages`: on success, `setChats(prev => prev.map(chat =>
chat.id === chatId ? { ...chat, messages: formattedMessages } : chat))`. -/
def loadMessagesUpdate (chats : List Chat) (chatId : String)
    (formattedMessages : List MessageData) : List Chat :=
  chats.map fun chat =>
    if chat.id == chatId then { chat with messages := formattedMessages } else chat

/-- Result of `handleChatSelect`: the new active chat id, the chat list after
the optional `loadMessages`, and whether a message-list fetch was issued. -/
structure SelectOutcome where
  activeChat : String
  chats : List Chat
  fetched : Bool
deriving Repr, DecidableEq

/-- `handleChatSelect` from `Chat.tsx` (identical in the earlier variant):
sets the active chat, then fetches messages only when
`chat && chat.messages.length === 0 && chat.messageCount > 0` for
`chat = chats.find(c => c.id === chatId)`.  `fetchedMsgs` stands for the
message list a fetch would return. -/
def handleChatSelect (chats : List Chat) (chatId : String)
    (fetchedMsgs : List MessageData) : SelectOutcome :=
  let fetch :=
    match chats.find? (fun c => c.id == chatId) with
    | some chat => chat.messages.length == 0 && decide (chat.messageCount > 0)
    | none => false
  ⟨chatId, if fetch then loadMessagesUpdate chats chatId fetchedMsgs else chats, fetch⟩

/-- Result of a confirmed `deleteChat`: the remaining chat list, the new
active selection, which chat (if any) has its messages loaded, and whether a
replacement chat creation was scheduled (`setTimeout(() => createNewChat(), 500)`). -/
structure DeleteOutcome where
  chats : List Chat
  activeChat : String
  loads : Option String
  schedulesNewChat : Bool
deriving Repr, DecidableEq

/-- `deleteChat` from `Chat.tsx` (the variant that auto-creates a replacement
chat): guard `if (!chatToDelete) return;`, then filter the list; if the
active chat was deleted, select the first remaining chat and load its
messages, else clear the selection and schedule `createNewChat` after 500ms. -/
def deleteChatHome (chats : List Chat) (activeChat : String)
    (chatToDelete : Option String) : DeleteOutcome :=
  match chatToDelete with
  | none => ⟨chats, activeChat, none, false⟩
  | some cid =>
    let updatedChats := chats.filter fun chat => chat.id != cid
    if activeChat = cid then
      match updatedChats with
      | [] => ⟨updatedChats, "", none, true⟩
      | c :: rest => ⟨c :: rest, c.id, some c.id, false⟩
    else ⟨updatedChats, activeChat, none, false⟩

/-- `deleteChat` from the earlier chat view variant: identical except that
when no chats remain it only clears the selection (no scheduled creation). -/
def deleteChatAlt (chats : List Chat) (activeChat : String)
    (chatToDelete : Option String) : DeleteOutcome :=
  match chatToDelete with
  | none => ⟨chats, activeChat, none, false⟩
  | some cid =>
    let remainingChats := chats.filter fun chat => chat.id != cid
    if activeChat = cid then
      match remainingChats with
      | [] => ⟨remainingChats, "", none, false⟩
      | c :: rest => ⟨c :: rest, c.id, some c.id, false⟩
    else ⟨remainingChats, activeChat, none, false⟩

/-! ### Auth form (`Pages/SignInUp.tsx`) -/

/-- `type AuthMode = 'signin' | 'signup' | 'forgot'`. -/
inductive AuthMode
  | signin
  | signup
  | forgot
deriving Repr, DecidableEq

/-- `interface FormState` from `SignInUp.tsx`.  The OTP field is manipulated
character-wise, so it is a `List Char`; the other text fields are `String`. -/
structure FormState where
  email : String
  otp : List Char
  password : String
  newPassword : String
  mode : AuthMode
  otpSent : Bool
  otpId : String
  verificationToken : String
  loading : Bool
  error : String
  success : String
  showSnackbar : Bool
deriving Repr, DecidableEq

/-- `initialFormState` from `SignInUp.tsx`. -/
def initialFormState : FormState :=
  { email := "", otp := [], password := "", newPassword := "",
    mode := .signin, otpSent := false, otpId := "", verificationToken := "",
    loading := false, error := "", success := "", showSnackbar := false }

/-- The OTP `TextField` `onChange` transform:
`e.target.value.replace(/\D/g, '').slice(0, 6)` — strip non-digits, keep
the first six characters. -/
def otpInputTransform (value : List Char) : List Char :=
  (value.filter Char.isDigit).take 6

namespace validators

/-- `validators.otp`: `otp.length === 6 && /^\d+$/.test(otp)` (the regex
matches exactly the nonempty all-digit strings). -/
def otp (s : List Char) : Bool :=
  s.length == 6 && (!s.isEmpty && s.all Char.isDigit)

end validators

/-- The early-return gate of `handleVerifyOtp`:
`if (!validators.otp(formState.otp)) ... return false` — the verify request
is issued only when this is `true`. -/
def handleVerifyOtpGate (s : List Char) : Bool :=
  validators.otp s

/-- `handleModeToggle`: `setFormState({ ...initialFormState, mode: formState.mode === 'signin' ? 'signup' : 'signin' })`. -/
def handleModeToggle (st : FormState) : FormState :=
  { initialFormState with mode := if st.mode = .signin then .signup else .signin }

/-- `handleForgotPassword`: `setFormState({ ...initialFormState, mode: 'forgot' })`. -/
def handleForgotPassword (_st : FormState) : FormState :=
  { initialFormState with mode := .forgot }

/-- The `Back to Sign In` button handler:
`setFormState({ ...initialFormState, mode: 'signin' })`. -/
def backToSignIn (_st : FormState) : FormState :=
  { initialFormState with mode := .signin }

/-- The non-mode fields of a `FormState`, in the order they are declared. -/
def fieldsExceptMode (st : FormState) :
    String × List Char × String × String × Bool × String × String × Bool × String × String × Bool :=
  (st.email, st.otp, st.password, st.newPassword, st.otpSent, st.otpId,
   st.verificationToken, st.loading, st.error, st.success, st.showSnackbar)

/-! ### API service (`services/apiService.ts`) -/

/-- The browser `localStorage` keys managed by `ApiService`:
`accessToken`, `refreshToken`, `user` (each possibly absent). -/
structure TokenStore where
  accessToken : Option String
  refreshToken : Option String
  user : Option String
deriving Repr, DecidableEq

/-- `clearTokens`: removes `accessToken`, `refreshToken` and `user`. -/
def clearTokens (_st : TokenStore) : TokenStore :=
  ⟨none, none, none⟩

/-- The payload of a successful `/auth/refresh-token` response as the
interceptor reads it: `response.data.token` and `response.data.refreshToken`. -/
structure RefreshData where
  token : String
  refreshToken : String
deriving Repr, DecidableEq

/-- Outcome of one HTTP response as the axios response interceptor sees it:
success, 401 error, or any other error. -/
inductive Resp
  | ok
  | err401
  | errOther
deriving Repr, DecidableEq

/-- Final outcome of issuing one original request through the interceptor. -/
inductive ReqOutcome
  | success
  | rejected
deriving Repr, DecidableEq

/-- What happened while processing one original request: its final outcome,
how many times `/auth/refresh-token` was called, how many times the request
itself was issued, the final `_retry` flag on its config, the resulting
token store, and the value assigned to `window.location.href` (if any). -/
structure RunResult where
  outcome : ReqOutcome
  refreshCalls : Nat
  attempts : Nat
  retryMarked : Bool
  store : TokenStore
  redirect : Option String
deriving Repr, DecidableEq

/-- The response interceptor of `ApiService` applied to one original request.
`resp1` is the response to the first issue of the request and `resp2` the
response to the (at most one) re-issue; `refreshResult` is the result of the
refresh endpoint (`some` data on success, `none` when the call rejects).

Mirrors the code: on a 401 with `!originalRequest._retry`, it first sets
`_retry = true`, then reads the stored refresh token; if present it calls
the refresh endpoint, stores the new tokens and re-issues the request with
the new token — a 401 (or any error) on the re-issue is rejected because
`_retry` is now `true`.  If the refresh call fails, the `catch` block runs
`logout()` (clearing the store) and sets `window.location.href = '/'`, and
the original error is still rejected.  If no refresh token is stored, the
`if (refreshToken)` block is skipped and the error is rejected as-is. -/
def runRequest (st : TokenStore) (resp1 resp2 : Resp)
    (refreshResult : Option RefreshData) : RunResult :=
  match resp1 with
  | .ok => ⟨.success, 0, 1, false, st, none⟩
  | .errOther => ⟨.rejected, 0, 1, false, st, none⟩
  | .err401 =>
    match st.refreshToken with
    | some _ =>
      match refreshResult with
      | some d =>
        let st2 := { st with accessToken := some d.token, refreshToken := some d.refreshToken }
        match resp2 with
        | .ok => ⟨.success, 1, 2, true, st2, none⟩
        | .err401 => ⟨.rejected, 1, 2, true, st2, none⟩
        | .errOther => ⟨.rejected, 1, 2, true, st2, none⟩
      | none => ⟨.rejected, 1, 1, true, clearTokens st, some "/"⟩
    | none => ⟨.rejected, 0, 1, true, st, none⟩

/-- The JSON object decoded from a JWT payload segment, keeping only the
claim the code reads: `exp` (expiry in seconds), absent when the payload is
not an object or has no numeric `exp`. -/
structure JwtPayload where
  exp : Option Int
deriving Repr, DecidableEq

/-- `token.split('.')[1]`: the JWT payload segment, absent when the token
contains no dot (in JS the index is then `undefined` and the subsequent
`atob` throws, caught by the surrounding `try`). -/
def jwtPayloadSegment (token : String) : Option String :=
  (token.splitOn ".")[1]?

/-- `ApiService.isAuthenticated`.  `parsePayload` stands for the platform
pipeline `JSON.parse(atob(segment))` (`none` when it throws, which the
`catch` turns into `false`).  `nowMs` is `Date.now()`; the code compares
`payload.exp > Date.now() / 1000`, i.e. `nowMs < 1000 * exp`.  A stored
empty-string token is rejected by the initial `if (!token)` guard; a
missing `exp` makes the JS comparison `undefined > currentTime` false. -/
def isAuthenticated (parsePayload : String → Option JwtPayload)
    (stored : Option String) (nowMs : Int) : Bool :=
  match stored with
  | none => false
  | some token =>
    if token = "" then false
    else
      match jwtPayloadSegment token with
      | none => false
      | some seg =>
        match parsePayload seg with
        | none => false
        | some payload =>
          match payload.exp with
          | none => false
          | some e => decide (nowMs < 1000 * e)

/-! ### Sample values used by witnesses -/

/-- A sample user message as returned by the send endpoint. -/
def sampleUserMsg : MessageData := ⟨"m1", "Hello".toList, true, 10⟩

/-- A sample assistant message as returned by the send endpoint. -/
def sampleAiMsg : MessageData := ⟨"m2", "Hi, how can I help?".toList, false, 11⟩

/-- A sample paired send response. -/
def sampleResp : SendResponse := ⟨sampleUserMsg, sampleAiMsg⟩

/-- A freshly created chat: empty message list, zero count. -/
def sampleNewChat : Chat := ⟨"c1", "New Chat".toList, [], 0, 0⟩

/-- A chat whose messages are already loaded. -/
def sampleLoadedChat : Chat := ⟨"c2", "Older chat".toList, [sampleUserMsg, sampleAiMsg], 3, 4⟩

/-- A chat with a positive count whose messages are not loaded yet. -/
def sampleUnloadedChat : Chat := ⟨"c3", "Unloaded".toList, [], 5, 6⟩

/-- A token store holding both tokens and a cached user. -/
def sampleStore : TokenStore := ⟨some "acc", some "ref", some "usr"⟩

/-- A token store with an access token but no refresh token. -/
def storeNoRefresh : TokenStore := ⟨some "acc", none, some "usr"⟩

/-! ### Claim theorems -/

/-- Claim C7: for every input typed into the OTP field, the stored OTP equals
the first 6 characters of the input after removing all non-digit characters;
hence it consists only of digits, has length at most 6, and the verify step's
gate passes exactly when it has length 6. -/
theorem otp_input_digits_and_gate (value : List Char) :
    otpInputTransform value = (value.filter Char.isDigit).take 6 ∧
    (∀ c ∈ otpInputTransform value, c.isDigit) ∧
    (otpInputTransform value).length ≤ 6 ∧
    (handleVerifyOtpGate (otpInputTransform value) = true ↔
      (otpInputTransform value).length = 6) := by
  have hdig : ∀ c ∈ otpInputTransform value, c.isDigit := by
    intro c hc
    have hmem : c ∈ value.filter Char.isDigit := List.mem_of_mem_take hc
    exact (List.mem_filter.mp hmem).2
  refine ⟨rfl, hdig, ?_, ?_⟩
  · simp [otpInputTransform, List.length_take]
  · constructor
    · intro h
      have := (Bool.and_eq_true _ _).mp h
      simpa using this.1
    · intro h
      have hall : (otpInputTransform value).all Char.isDigit = true :=
        List.all_eq_true.mpr hdig
      have hne : otpInputTransform value ≠ [] := by
        intro hnil
        rw [hnil] at h
        simp at h
      simp [handleVerifyOtpGate, validators.otp, h, hall, hne]

/-- Claim C8: switching the auth form between the signin, signup and forgot
modes resets every other form field (email, otp, password, newPassword,
otpSent, otpId, verificationToken, loading, error, success, showSnackbar)
to its initial value while setting only the mode to the target mode. -/
theorem mode_switch_resets_fields (st : FormState) :
    fieldsExceptMode (handleModeToggle st) = fieldsExceptMode initialFormState ∧
    (handleModeToggle st).mode = (if st.mode = .signin then .signup else .signin) ∧
    fieldsExceptMode (handleForgotPassword st) = fieldsExceptMode initialFormState ∧
    (handleForgotPassword st).mode = .forgot ∧
    fieldsExceptMode (backToSignIn st) = fieldsExceptMode initialFormState ∧
    (backToSignIn st).mode = .signin ∧
    fieldsExceptMode initialFormState =
      ("", [], "", "", false, "", "", false, "", "", false) :=
  ⟨rfl, rfl, rfl, rfl, rfl, rfl, rfl⟩

/-- Claim C10: if the message input is empty after trimming, or no chat is
active, `sendMessage` performs no network call and leaves the whole chat
state unchanged. -/
theorem sendMessage_guard_noop (st : ChatState) (resp : SendResponse) (now : Nat)
    (h : jsTrim st.message = [] ∨ st.activeChat = "") :
    sendMessage st resp now = (st, false) := by
  unfold sendMessage
  rw [if_pos h]

/-- Witness for C10 at a whitespace-only input. -/
theorem sendMessage_guard_noop_witness :
    sendMessage ⟨[sampleNewChat], "c1", [' ', '\t']⟩ sampleResp 7 =
      (⟨[sampleNewChat], "c1", [' ', '\t']⟩, false) :=
  sendMessage_guard_noop _ _ _ (Or.inl (by decide))

/-- Claim C5: selecting a chat issues a message-list fetch iff that chat's
local message list is empty and its messageCount is positive; reselecting a
chat whose messages are loaded issues no fetch and leaves the list unchanged. -/
theorem chat_select_fetch_iff (chats : List Chat) (chatId : String)
    (msgs : List MessageData) (chat : Chat)
    (hfind : chats.find? (fun c => c.id == chatId) = some chat) :
    ((handleChatSelect chats chatId msgs).fetched = true ↔
      chat.messages = [] ∧ 0 < chat.messageCount) ∧
    (handleChatSelect chats chatId msgs).activeChat = chatId ∧
    (chat.messages ≠ [] →
      (handleChatSelect chats chatId msgs).fetched = false ∧
      (handleChatSelect chats chatId msgs).chats = chats) := by
  unfold handleChatSelect
  rw [hfind]
  refine ⟨?_, ?_, ?_⟩
  · simp [List.length_eq_zero]
  · simp
  · intro hne
    have hcond : (chat.messages.length == 0 && decide (chat.messageCount > 0)) = false := by
      simp [List.length_eq_zero, hne]
    simp [hcond]

/-- Witness for C5: reselecting the loaded chat issues no fetch. -/
theorem chat_select_fetch_iff_witness :
    (handleChatSelect [sampleLoadedChat, sampleUnloadedChat] "c2" []).fetched = false ∧
    (handleChatSelect [sampleLoadedChat, sampleUnloadedChat] "c2" []).chats =
      [sampleLoadedChat, sampleUnloadedChat] :=
  (chat_select_fetch_iff [sampleLoadedChat, sampleUnloadedChat] "c2" []
    sampleLoadedChat (by decide)).2.2 (by decide)

/-- Claim C9: `isAuthenticated` is total (never throws) and returns `true`
exactly when a non-empty access token is stored, its JWT payload segment
exists and decodes/parses, and the payload's `exp` claim is strictly greater
than the current time in seconds; in particular it is `false` for an absent,
malformed, or expired token. -/
theorem isAuthenticated_iff (parsePayload : String → Option JwtPayload)
    (stored : Option String) (nowMs : Int) :
    (isAuthenticated parsePayload stored nowMs = true ↔
      ∃ token, stored = some token ∧ token ≠ "" ∧
        ∃ seg, jwtPayloadSegment token = some seg ∧
          ∃ payload, parsePayload seg = some payload ∧
            ∃ e, payload.exp = some e ∧ nowMs < 1000 * e) ∧
    isAuthenticated parsePayload none nowMs = false := by
  refine ⟨?_, by simp [isAuthenticated]⟩
  cases stored with
  | none => simp [isAuthenticated]
  | some token =>
    by_cases htok : token = ""
    · subst htok
      simp [isAuthenticated]
    · cases hseg : jwtPayloadSegment token with
      | none => simp [isAuthenticated, htok, hseg]
      | some seg =>
        cases hp : parsePayload seg with
        | none => simp [isAuthenticated, htok, hseg, hp]
        | some payload =>
          cases he : payload.exp with
          | none => simp [isAuthenticated, htok, hseg, hp, he]
          | some e => simp [isAuthenticated, htok, hseg, hp, he]

/-- Claim C1: for every original request that receives a 401, the interceptor
attempts at most one token refresh, marks the request as already-retried,
re-issues it at most once, and a second 401 on the retried request is
propagated without triggering another refresh — no per-request retry loop. -/
theorem interceptor_single_refresh (st : TokenStore) (resp1 resp2 : Resp)
    (refreshResult : Option RefreshData) :
    (runRequest st resp1 resp2 refreshResult).refreshCalls ≤ 1 ∧
    (runRequest st resp1 resp2 refreshResult).attempts ≤ 2 ∧
    (resp1 = .err401 → (runRequest st resp1 resp2 refreshResult).retryMarked = true) ∧
    (resp1 = .err401 → resp2 = .err401 →
      (runRequest st resp1 resp2 refreshResult).outcome = .rejected) := by
  obtain ⟨acc, rt, usr⟩ := st
  cases resp1 <;> cases resp2 <;> cases rt <;> cases refreshResult <;>
    simp [runRequest]

/-- Witness for C1: a 401, a successful refresh, then a second 401 — the
result is a rejection after exactly one refresh call. -/
theorem interceptor_single_refresh_witness :
    (runRequest sampleStore .err401 .err401 (some ⟨"acc2", "ref2"⟩)).outcome =
      .rejected ∧
    (runRequest sampleStore .err401 .err401 (some ⟨"acc2", "ref2"⟩)).refreshCalls ≤ 1 :=
  ⟨(interceptor_single_refresh sampleStore .err401 .err401 (some ⟨"acc2", "ref2"⟩)).2.2.2
      rfl rfl,
   (interceptor_single_refresh sampleStore .err401 .err401 (some ⟨"acc2", "ref2"⟩)).1⟩

/-- Counterexample to C2 as stated: a not-yet-retried request receives a 401
while no refresh token is stored; the interceptor propagates the failure but
does NOT clear the stored tokens and does NOT redirect (the `if
(refreshToken)` block is skipped and no exception reaches the `catch`). -/
theorem interceptor_no_refresh_token_cex :
    (runRequest storeNoRefresh .err401 .ok none).outcome = .rejected ∧
    (runRequest storeNoRefresh .err401 .ok none).store.accessToken = some "acc" ∧
    (runRequest storeNoRefresh .err401 .ok none).redirect = none := by
  decide

/-- Claim C2 (amended): on a 401 for a not-yet-retried request with no stored
refresh token, the interceptor propagates the failure unchanged — no token
clear, no redirect; when a refresh token is present but the refresh call
fails, it clears the stored tokens, redirects to the sign-in entry point
`/`, and still propagates the original failure. -/
theorem interceptor_401_refresh_failure :
    (∀ (st : TokenStore) (resp2 : Resp) (rr : Option RefreshData),
      st.refreshToken = none →
        runRequest st .err401 resp2 rr = ⟨.rejected, 0, 1, true, st, none⟩) ∧
    (∀ (st : TokenStore) (t : String) (resp2 : Resp),
      st.refreshToken = some t →
        runRequest st .err401 resp2 none =
          ⟨.rejected, 1, 1, true, clearTokens st, some "/"⟩) := by
  constructor
  · intro st resp2 rr h
    obtain ⟨acc, rt, usr⟩ := st
    cases h
    cases rr <;> simp [runRequest]
  · intro st t resp2 h
    obtain ⟨acc, rt, usr⟩ := st
    cases h
    simp [runRequest]

/-- Witness for C2 (amended) at concrete stores. -/
theorem interceptor_401_refresh_failure_witness :
    runRequest storeNoRefresh .err401 .ok none =
      ⟨.rejected, 0, 1, true, storeNoRefresh, none⟩ ∧
    runRequest sampleStore .err401 .ok none =
      ⟨.rejected, 1, 1, true, clearTokens sampleStore, some "/"⟩ :=
  ⟨interceptor_401_refresh_failure.1 storeNoRefresh .ok none rfl,
   interceptor_401_refresh_failure.2 sampleStore "ref" .ok rfl⟩

/-- Helper: the send updater leaves a chat with a nonempty message list with
its title unchanged. -/
theorem sendMessageChatUpdate_title_of_ne_nil (a : String) (m : List Char)
    (resp : SendResponse) (now : Nat) (chat : Chat) (h : chat.messages ≠ []) :
    (sendMessageChatUpdate a m resp now chat).title = chat.title := by
  unfold sendMessageChatUpdate
  split
  · simp [List.length_eq_zero, h]
  · rfl

/-- Helper: the send updater maps each list position independently. -/
theorem sendMessageUpdate_getElem (a : String) (m : List Char) (resp : SendResponse)
    (now : Nat) (chats : List Chat) (i : Nat) (h1 : i < chats.length)
    (h2 : i < (sendMessageUpdate a m resp now chats).length) :
    (sendMessageUpdate a m resp now chats)[i] =
      sendMessageChatUpdate a m resp now chats[i] := by
  simp [sendMessageUpdate]

/-- Claim C3: a successful send updates the chats in a single functional
step: the active chat gets the returned user and assistant messages appended
in that order, its messageCount grows by exactly 2, its last-activity
timestamp is set to the current time, and every other chat is unchanged. -/
theorem sendMessage_appends_pair (a : String) (m : List Char) (resp : SendResponse)
    (now : Nat) (chats : List Chat) :
    (sendMessageUpdate a m resp now chats).length = chats.length ∧
    ∀ (i : Nat) (h1 : i < chats.length)
      (h2 : i < (sendMessageUpdate a m resp now chats).length),
      (chats[i].id ≠ a → (sendMessageUpdate a m resp now chats)[i] = chats[i]) ∧
      (chats[i].id = a →
        ((sendMessageUpdate a m resp now chats)[i]).messages =
          chats[i].messages ++ [resp.userMessage, resp.aiMessage] ∧
        ((sendMessageUpdate a m resp now chats)[i]).messageCount =
          chats[i].messageCount + 2 ∧
        ((sendMessageUpdate a m resp now chats)[i]).lastMessage = now ∧
        ((sendMessageUpdate a m resp now chats)[i]).id = chats[i].id) := by
  refine ⟨by simp [sendMessageUpdate], ?_⟩
  intro i h1 h2
  rw [sendMessageUpdate_getElem a m resp now chats i h1 h2]
  constructor
  · intro hne
    simp [sendMessageChatUpdate, hne]
  · intro heq
    simp [sendMessageChatUpdate, heq]

/-- Witness for C3: the active chat gains the pair (count 2), the other chat
is untouched. -/
theorem sendMessage_appends_pair_witness :
    ((sendMessageUpdate "c1" "Hello".toList sampleResp 99
        [sampleNewChat, sampleLoadedChat]).get ⟨0, by decide⟩).messageCount = 2 ∧
    (sendMessageUpdate "c1" "Hello".toList sampleResp 99
        [sampleNewChat, sampleLoadedChat]).get ⟨1, by decide⟩ = sampleLoadedChat := by
  obtain ⟨hlen, hpt⟩ :=
    sendMessage_appends_pair "c1" "Hello".toList sampleResp 99
      [sampleNewChat, sampleLoadedChat]
  constructor
  · have h0 := (hpt 0 (by decide) (by decide)).2 (by decide)
    simpa [List.get_eq_getElem, sampleNewChat] using h0.2.1
  · have h1 := (hpt 1 (by decide) (by decide)).1 (by decide)
    simpa [List.get_eq_getElem] using h1

/-- Claim C4: the title of a chat is set from the first sent message — the
message itself when it has at most 30 characters, else its first 30
characters followed by an ellipsis — and any later send (the message list
being nonempty then) leaves the title unchanged; in particular a second send
right after the first one does. -/
theorem chat_title_from_first_message (a : String) (m m2 : List Char)
    (resp resp2 : SendResponse) (now now2 : Nat) (chat : Chat) :
    (chat.id = a → chat.messages = [] →
      (sendMessageChatUpdate a m resp now chat).title = truncateTitle m) ∧
    (m.length ≤ 30 → truncateTitle m = m) ∧
    (30 < m.length → truncateTitle m = m.take 30 ++ ['.', '.', '.']) ∧
    (chat.messages ≠ [] → (sendMessageChatUpdate a m resp now chat).title = chat.title) ∧
    (chat.id = a →
      (sendMessageChatUpdate a m2 resp2 now2 (sendMessageChatUpdate a m resp now chat)).title =
        (sendMessageChatUpdate a m resp now chat).title) := by
  refine ⟨?_, ?_, ?_, ?_, ?_⟩
  · intro hid hnil
    simp [sendMessageChatUpdate, hid, hnil]
  · intro hle
    unfold truncateTitle
    rw [if_neg (by omega), List.take_of_length_le hle, List.append_nil]
  · intro hgt
    unfold truncateTitle
    rw [if_pos hgt]
  · exact sendMessageChatUpdate_title_of_ne_nil a m resp now chat
  · intro hid
    apply sendMessageChatUpdate_title_of_ne_nil
    simp [sendMessageChatUpdate, hid]

/-- Witness for C4: sending `Hello` as the first message of a chat titled
`New Chat` yields title `Hello`. -/
theorem chat_title_from_first_message_witness :
    (sendMessageChatUpdate "c1" "Hello".toList sampleResp 99 sampleNewChat).title =
      "Hello".toList ∧
    truncateTitle "Hello".toList = "Hello".toList := by
  obtain ⟨hfirst, htrunc, -, -, -⟩ :=
    chat_title_from_first_message "c1" "Hello".toList "Again".toList sampleResp
      sampleResp 99 100 sampleNewChat
  have ht := htrunc (by decide)
  exact ⟨by rw [hfirst rfl rfl, ht], ht⟩

/-- Claim C6: after a confirmed delete of the active chat, the first
remaining chat becomes active and its messages are loaded; if none remain
the selection is cleared, and only the `Chat.tsx` variant schedules creation
of a replacement chat; deleting a non-active chat leaves the selection
unchanged, in both variants. -/
theorem delete_chat_selection (chats : List Chat) (activeChat cid : String) :
    (∀ (c : Chat) (rest : List Chat), activeChat = cid →
      chats.filter (fun chat => chat.id != cid) = c :: rest →
        deleteChatHome chats activeChat (some cid) = ⟨c :: rest, c.id, some c.id, false⟩ ∧
        deleteChatAlt chats activeChat (some cid) = ⟨c :: rest, c.id, some c.id, false⟩) ∧
    (activeChat = cid → chats.filter (fun chat => chat.id != cid) = [] →
        deleteChatHome chats activeChat (some cid) = ⟨[], "", none, true⟩ ∧
        deleteChatAlt chats activeChat (some cid) = ⟨[], "", none, false⟩) ∧
    (activeChat ≠ cid →
        deleteChatHome chats activeChat (some cid) =
          ⟨chats.filter (fun chat => chat.id != cid), activeChat, none, false⟩ ∧
        deleteChatAlt chats activeChat (some cid) =
          ⟨chats.filter (fun chat => chat.id != cid), activeChat, none, false⟩) := by
  refine ⟨?_, ?_, ?_⟩
  · intro c rest hact hfilter
    constructor <;> simp [deleteChatHome, deleteChatAlt, hact, hfilter]
  · intro hact hfilter
    constructor <;> simp [deleteChatHome, deleteChatAlt, hact, hfilter]
  · intro hne
    constructor <;> simp [deleteChatHome, deleteChatAlt, hne]

/-- Witness for C6: deleting the active chat with one other chat left, and
deleting the only chat, in both variants. -/
theorem delete_chat_selection_witness :
    deleteChatHome [sampleNewChat, sampleLoadedChat] "c1" (some "c1") =
      ⟨[sampleLoadedChat], "c2", some "c2", false⟩ ∧
    deleteChatHome [sampleNewChat] "c1" (some "c1") = ⟨[], "", none, true⟩ ∧
    deleteChatAlt [sampleNewChat] "c1" (some "c1") = ⟨[], "", none, false⟩ := by
  have h1 := (delete_chat_selection [sampleNewChat, sampleLoadedChat] "c1" "c1").1
    sampleLoadedChat [] rfl (by decide)
  have h2 := (delete_chat_selection [sampleNewChat] "c1" "c1").2.1 rfl (by decide)
  exact ⟨h1.1, h2.1, h2.2⟩
